import Mathlib

/-!
Verification of the state-ownership arbitration core of the toggle
control-props module (`src/exercise/06.js`): a shallow embedding of the
reducer, the ownership arbitration, the dispatch-with-notification path,
the two diagnostic hooks and the property-set builders, with theorems
settling the specified properties.
-/

namespace ControlProps

/-- The toggle state `{ on: boolean }`. -/
structure ToggleState where
  «on» : Bool
deriving DecidableEq, Repr

/-- Actions handled by `toggleReducer`: the JS action object `{type, initialState}`.
`{type: 'toggle'}` embeds as `.toggle`, `{type: 'reset', initialState: i}` as
`.reset i`, and an object with any other `type` tag `t` as `.unknown t`. -/
inductive Action where
  | toggle
  | reset (initialState : ToggleState)
  | unknown (type : String)
deriving DecidableEq, Repr

/-- `toggleReducer(state, {type, initialState})` from the source: `toggle`
returns `{on: !state.on}`, `reset` returns `initialState` verbatim, and any
other tag throws `Unsupported type: ${type}` (modelled as `Except.error`). -/
def toggleReducer (state : ToggleState) : Action → Except String ToggleState
  | Action.toggle => Except.ok { «on» := !state.on }
  | Action.reset initialState => Except.ok initialState
  | Action.unknown t => Except.error ("Unsupported type: " ++ t)

/-- Statement-level rendering of `toggleReducer` that also returns the value of
the `state` argument after execution: the source body only reads `state.on` and
never writes to `state` or its fields, so every branch carries `state` through
unchanged. The second component makes non-mutation of the argument a provable
statement. -/
def toggleReducerSt (state : ToggleState) (a : Action) :
    Except String ToggleState × ToggleState :=
  match a with
  | Action.toggle => (Except.ok { «on» := !state.on }, state)
  | Action.reset initialState => (Except.ok initialState, state)
  | Action.unknown t => (Except.error ("Unsupported type: " ++ t), state)

/-- The control prop `on` as supplied by the caller: JS `undefined` (prop
omitted), JS `null`, or a present boolean value. The source tests it with
`controlledOn != null`, which is false exactly for `undefined` and `null`. -/
inductive ControlProp where
  | undef
  | null
  | value (b : Bool)
deriving DecidableEq, Repr

/-- The JS loose test `controlPropValue != null`: true exactly when a value is
present (neither `undefined` nor `null`). -/
def ControlProp.isNotNullish : ControlProp → Bool
  | ControlProp.value _ => true
  | _ => false

/-- The configuration `useToggle` receives on a render: `initialOn`,
`reducer`, presence of the `onChange` sink, the `on` control prop and
`readOnly`, with the source's default values. -/
structure Config where
  initialOn : Bool := false
  reducer : ToggleState → Action → Except String ToggleState := toggleReducer
  hasOnChange : Bool := false
  controlledOn : ControlProp := ControlProp.undef
  readOnly : Bool := false

/-- Line 77: `const onIsControlled = controlledOn != null`. -/
def onIsControlled (cfg : Config) : Bool :=
  cfg.controlledOn.isNotNullish

/-- Line 78: `const on = onIsControlled ? controlledOn : state.on`. -/
def effectiveOn (cfg : Config) (state : ToggleState) : Bool :=
  match cfg.controlledOn with
  | ControlProp.value b => b
  | _ => state.on

/-- The effective state as a `ToggleState`: the internal state with its `on`
field replaced by the externally visible value, exactly the shallow merge
`{...state, on}` the dispatcher passes to the reducer (line 111). -/
def effectiveState (cfg : Config) (state : ToggleState) : ToggleState :=
  { state with «on» := effectiveOn cfg state }

/-- Lines 109-112, `dispatchWithOnChange`: when not controlled the store
advances by `reducer(state, action)`; then `onChange?.(reducer({...state, on},
action), action)`. Optional chaining short-circuits: when `onChange` is absent
the whole call — its arguments included — is skipped, so the suggestion
reducer is evaluated only when a sink is present. The result is the store's
canonical state afterwards together with the list of `(suggested, action)`
calls made to the sink (empty when the sink is absent, a single call when
present); a reducer throw propagates as `Except.error`. -/
def dispatchWithOnChange (cfg : Config) (state : ToggleState) (action : Action) :
    Except String (ToggleState × List (ToggleState × Action)) :=
  match (if onIsControlled cfg then Except.ok state else cfg.reducer state action) with
  | Except.error e => Except.error e
  | Except.ok storeState =>
    if cfg.hasOnChange then
      match cfg.reducer (effectiveState cfg state) action with
      | Except.error e => Except.error e
      | Except.ok suggested => Except.ok (storeState, [(suggested, action)])
    else Except.ok (storeState, [])

/-- Line 114: `toggle = () => dispatchWithOnChange({type: actionTypes.toggle})`. -/
def toggle (cfg : Config) (state : ToggleState) :
    Except String (ToggleState × List (ToggleState × Action)) :=
  dispatchWithOnChange cfg state Action.toggle

/-- Lines 115-116: `reset = () => dispatchWithOnChange({type: actionTypes.reset,
initialState})`, where `initialState` is the ref captured at construction. -/
def reset (cfg : Config) (initialState state : ToggleState) :
    Except String (ToggleState × List (ToggleState × Action)) :=
  dispatchWithOnChange cfg state (Action.reset initialState)

/-- The three distinguishable diagnostics of the consistency monitor. -/
inductive Diagnostic where
  | uncontrolledToControlled
  | controlledToUncontrolled
  | readOnlyWithoutEscapeHatch
deriving DecidableEq, Repr

/-- `useOnChangeReadOnlyWarning` (lines 26-41): with `hasOnChange =
Boolean(onChangePropValue)` and `isControlled = controlPropValue != null`,
the effect computes `isReadOnly = !hasOnChange && isControlled && !readOnly`
and emits the read-only diagnostic exactly when `isReadOnly` holds
(`warning(cond, msg)` logs when `cond` is falsy). -/
def useOnChangeReadOnlyWarning (hasOnChange : Bool) (controlPropValue : ControlProp)
    (readOnly : Bool) : List Diagnostic :=
  let isControlled := controlPropValue.isNotNullish
  let isReadOnly := !hasOnChange && isControlled && !readOnly
  if isReadOnly then [Diagnostic.readOnlyWithoutEscapeHatch] else []

/-- The effect body of `useControlledSwitchWarning` (lines 12-22): with the
ref's value `refCurrent` and the current `isControlled`, emit the
uncontrolled-to-controlled diagnostic when `!refCurrent && isControlled` and
the controlled-to-uncontrolled diagnostic when `refCurrent && !isControlled`.
The source never assigns to `isControlledRef.current`. -/
def switchWarnings (refCurrent isControlled : Bool) : List Diagnostic :=
  (if !refCurrent && isControlled then [Diagnostic.uncontrolledToControlled] else [])
    ++ (if refCurrent && !isControlled then [Diagnostic.controlledToUncontrolled] else [])

/-- The state `useControlledSwitchWarning` retains across evaluations: the ref
cell (initialized at mount from the first `isControlled`, never written again
in the source) and the `isControlled` dependency value of the last effect run
(the effect re-runs only when it changes). -/
structure MonitorState where
  wasControlled : Bool
  prevDep : Bool
deriving DecidableEq, Repr

/-- Mount: the ref is initialized to the current mode and the effect runs. -/
def monitorMount (isControlled : Bool) : MonitorState × List Diagnostic :=
  (⟨isControlled, isControlled⟩, switchWarnings isControlled isControlled)

/-- A later evaluation (re-render) with current mode `isControlled`: the
effect re-runs exactly when its dependency changed since the last run, and
then evaluates the warnings against the unchanged ref value. -/
def monitorStep (ms : MonitorState) (isControlled : Bool) :
    MonitorState × List Diagnostic :=
  if isControlled = ms.prevDep then (ms, [])
  else ({ ms with prevDep := isControlled }, switchWarnings ms.wasControlled isControlled)

/-- Folding step accumulating the diagnostics of successive evaluations. -/
def monitorAcc (acc : MonitorState × List Diagnostic) (c : Bool) :
    MonitorState × List Diagnostic :=
  ((monitorStep acc.1 c).1, acc.2 ++ (monitorStep acc.1 c).2)

/-- All diagnostics `useControlledSwitchWarning` emits over a lifetime whose
ownership modes are `first` at mount followed by `rest` on re-renders. -/
def monitorRun (first : Bool) (rest : List Bool) : List Diagnostic :=
  (rest.foldl monitorAcc (monitorMount first)).2

/-- The ownership-mode-flip check as claim C3 words it, for comparison with
`monitorRun`: the previous mode `P` (seeded from the first evaluation) is
compared against the current mode `C` on every evaluation and then updated,
`P := C`. -/
def claimMonitorRun (first : Bool) (rest : List Bool) : List Diagnostic :=
  (rest.foldl (fun acc c => (c, acc.2 ++ switchWarnings acc.1 c))
    (first, ([] : List Diagnostic))).2

/-- Observable events of attached handlers: an invocation of the
caller-supplied click handler or of the hook's `toggle`, with the click
argument it received. -/
inductive Event where
  | callerClick (arg : Nat)
  | toggleClick (arg : Nat)
deriving DecidableEq, Repr

/-- The optional call `fn?.(...args)`: the handler's trace when present, no
events when absent. -/
def optCall {α β : Type} : Option (α → List β) → α → List β
  | some f, args => f args
  | none, _ => []

/-- `callAll` (lines 43-46): `(...fns) => (...args) => fns.forEach(fn =>
fn?.(...args))` — one callable that invokes each present member, in listed
order, with the same arguments; its trace is the concatenation of the
members' traces, return values discarded. -/
def callAll {α β : Type} (fns : List (Option (α → List β))) : α → List β :=
  fun args => fns.foldl (fun acc fn => acc ++ optCall fn args) []

/-- A value in a property bundle: a boolean attribute, a click handler
(represented by its trace function), or any other value. -/
inductive PropVal where
  | boolVal (b : Bool)
  | handlerVal (h : Nat → List Event)
  | strVal (s : String)

/-- Lookup in a JS object built by spreading a key-value list: the last
binding of a key wins (later spreads override earlier keys). -/
def lookupLast (props : List (String × PropVal)) (key : String) : Option PropVal :=
  props.foldl (fun acc p => if p.1 = key then some p.2 else acc) none

/-- The caller's overrides object after the parameter destructuring
`{onClick, ...props}` of line 118: the extracted `onClick` handler, when one
was supplied, and the remaining properties (which hold no `onClick` key). -/
structure Overrides where
  onClick : Option (Nat → List Event) := none
  rest : List (String × PropVal) := []

/-- `getTogglerProps` (lines 118-124): the bundle `{'aria-pressed': on,
onClick: callAll(onClick, toggle), ...props}` as a map from key to value: a
key of the spread `props` wins; otherwise the built-in state indicator and
the composed click handler apply. `on` is the effective value of line 78 and
`toggleH` the hook's `toggle` closure. -/
def getTogglerProps («on» : Bool) (toggleH : Nat → List Event) (ov : Overrides) :
    String → Option PropVal :=
  fun key =>
    match lookupLast ov.rest key with
    | some v => some v
    | none =>
      if key = "aria-pressed" then some (PropVal.boolVal «on»)
      else if key = "onClick" then
        some (PropVal.handlerVal (callAll [ov.onClick, some toggleH]))
      else none

end ControlProps

namespace ControlProps

/-- C4: the transition function maps `Toggle` to `{on: !s.on}`, maps
`Reset{initialState: i}` to `i` verbatim, fails on any other tag with an
unsupported-action error, and that error propagates unrecovered through the
dispatcher to the caller. -/
theorem toggleReducer_cases (s i : ToggleState) (t : String) :
    toggleReducer s Action.toggle = Except.ok { «on» := !s.on }
    ∧ toggleReducer s (Action.reset i) = Except.ok i
    ∧ toggleReducer s (Action.unknown t) = Except.error ("Unsupported type: " ++ t)
    ∧ dispatchWithOnChange { hasOnChange := true } s (Action.unknown t) =
        Except.error ("Unsupported type: " ++ t) := by
  exact ⟨rfl, rfl, rfl, rfl⟩

/-- C7: the transition function is pure and deterministic: it leaves its state
argument unchanged (the state-passing rendering returns it intact), its result
is that of the pure function of `(s, a)`, and two calls on the same inputs
give equal outputs. -/
theorem toggleReducer_pure (s : ToggleState) (a : Action) :
    (toggleReducerSt s a).2 = s
    ∧ (toggleReducerSt s a).1 = toggleReducer s a
    ∧ toggleReducer s a = toggleReducer s a := by
  cases a <;> exact ⟨rfl, rfl, rfl⟩

/-- C8: applying `Toggle` and then `Reset{initialState: i}` through the
transition function yields exactly `i`, for every start state `s` and every
`i`. -/
theorem toggle_then_reset (s i : ToggleState) :
    (toggleReducer s Action.toggle).bind (fun s' => toggleReducer s' (Action.reset i)) =
      Except.ok i := rfl

/-- C1: with an externally supplied controlled value `true` and an `onChange`
sink present, `toggle()` leaves the store's canonical state unchanged and
makes exactly one `onChange` call, with suggested state `{on: false}` (the
externally visible value inverted) and the toggle action. -/
theorem controlled_toggle_frame (cfg : Config) (state : ToggleState)
    (hc : cfg.controlledOn = ControlProp.value true)
    (ho : cfg.hasOnChange = true)
    (hr : cfg.reducer = toggleReducer) :
    toggle cfg state = Except.ok (state, [({ «on» := false }, Action.toggle)]) := by
  rcases cfg with ⟨i, r, h, co, ro⟩
  simp only at hc ho hr
  subst hc; subst ho; subst hr
  rfl

/-- Witness for C1 at the concrete configuration
`{controlledOn := value true, hasOnChange := true}` and store state `{on := false}`. -/
theorem controlled_toggle_frame_witness :
    toggle { hasOnChange := true, controlledOn := ControlProp.value true }
        { «on» := false } =
      Except.ok ({ «on» := false }, [({ «on» := false }, Action.toggle)]) :=
  controlled_toggle_frame
    { hasOnChange := true, controlledOn := ControlProp.value true }
    { «on» := false } rfl rfl rfl

/-- C2: whenever a dispatch completes, the suggested states it forwarded to
the notification sink are exactly the reducer applied to the currently
effective state (external value when owned, internal otherwise — never the
raw internal store state when ownership is external), paired with the
dispatched action: one such call when the sink is present, none when it is
absent. -/
theorem suggested_from_effective (cfg : Config) (state : ToggleState) (action : Action)
    (res : ToggleState × List (ToggleState × Action))
    (hd : dispatchWithOnChange cfg state action = Except.ok res) :
    (if cfg.hasOnChange then
        (cfg.reducer (effectiveState cfg state) action).map (fun sug => [(sug, action)])
      else Except.ok []) =
      Except.ok res.2 := by
  rw [dispatchWithOnChange] at hd
  rcases h1 : (if onIsControlled cfg then Except.ok state else cfg.reducer state action) with
    e | st
  · rw [h1] at hd
    exact absurd hd (by simp)
  · rw [h1] at hd
    cases hs : cfg.hasOnChange with
    | true =>
      rcases h2 : cfg.reducer (effectiveState cfg state) action with e | sug
      · rw [h2] at hd
        simp [hs] at hd
      · rw [h2] at hd
        simp only [hs, eq_self_iff_true, if_true, Except.ok.injEq] at hd
        rw [← hd]
        simp [hs, Except.map]
    | false =>
      simp only [hs, Bool.false_eq_true, if_false, Except.ok.injEq] at hd
      rw [← hd]
      simp [hs]

/-- Witness for C2 at a controlled configuration: `controlledOn = value true`,
sink present, internal state `{on := false}`, toggle action. -/
theorem suggested_from_effective_witness :
    (if Config.hasOnChange
          ({ hasOnChange := true, controlledOn := ControlProp.value true } : Config) then
        (Config.reducer
              ({ hasOnChange := true, controlledOn := ControlProp.value true } : Config)
              (effectiveState { hasOnChange := true, controlledOn := ControlProp.value true }
                { «on» := false })
              Action.toggle).map
          (fun sug => [(sug, Action.toggle)])
      else Except.ok []) =
      Except.ok [({ «on» := false }, Action.toggle)] :=
  suggested_from_effective
    { hasOnChange := true, controlledOn := ControlProp.value true }
    { «on» := false } Action.toggle
    ({ «on» := false }, [({ «on» := false }, Action.toggle)]) rfl

/-- C5: the effective value equals the external controlled value exactly when
one is present, and equals the store's state otherwise; exactly one of the
two sources drives the displayed value (when externally owned, the displayed
value does not depend on the store state at all; when internally owned, the
control prop holds no value), so the two are never blended. -/
theorem effective_exclusive (cfg : Config) (s t : ToggleState) :
    (onIsControlled cfg = true →
      (∃ b, cfg.controlledOn = ControlProp.value b ∧ effectiveOn cfg s = b)
      ∧ effectiveOn cfg s = effectiveOn cfg t)
    ∧ (onIsControlled cfg = false →
      effectiveOn cfg s = s.on ∧ ∀ b, cfg.controlledOn ≠ ControlProp.value b) := by
  rcases cfg with ⟨i, r, h, co, ro⟩
  cases co <;>
    simp [onIsControlled, ControlProp.isNotNullish, effectiveOn]

/-- Witness for C5 at the controlled configuration `controlledOn = value true`
and store states `{on := false}`, `{on := true}`. -/
theorem effective_exclusive_witness :
    (∃ b, Config.controlledOn ({ controlledOn := ControlProp.value true } : Config) =
        ControlProp.value b
      ∧ effectiveOn { controlledOn := ControlProp.value true } { «on» := false } = b)
    ∧ effectiveOn { controlledOn := ControlProp.value true } { «on» := false } =
        effectiveOn { controlledOn := ControlProp.value true } { «on» := true } :=
  (effective_exclusive { controlledOn := ControlProp.value true }
    { «on» := false } { «on» := true }).1 rfl

/-- C6: the read-only diagnostic is emitted if and only if the component is
externally owned, no `onChange` sink is configured and `readOnly` is false;
the same configuration with `readOnly = true`, or with a sink present, emits
nothing. -/
theorem readonly_warning_iff (hasOnChange readOnly : Bool) (cp : ControlProp) :
    (useOnChangeReadOnlyWarning hasOnChange cp readOnly =
        [Diagnostic.readOnlyWithoutEscapeHatch]
      ↔ cp.isNotNullish = true ∧ hasOnChange = false ∧ readOnly = false)
    ∧ useOnChangeReadOnlyWarning hasOnChange cp true = []
    ∧ useOnChangeReadOnlyWarning true cp readOnly = [] := by
  cases cp <;> cases hasOnChange <;> cases readOnly <;>
    simp [useOnChangeReadOnlyWarning, ControlProp.isNotNullish]

/-- Helper: an evaluation whose mode equals the last effect dependency re-runs
nothing and leaves state and accumulated diagnostics unchanged. -/
theorem monitorAcc_same (ms : MonitorState) (acc : List Diagnostic) :
    monitorAcc (ms, acc) ms.prevDep = (ms, acc) := by
  simp [monitorAcc, monitorStep]

/-- Helper: any number of evaluations with an unchanged mode emit nothing. -/
theorem monitorAcc_const (ms : MonitorState) (acc : List Diagnostic) (n : Nat) :
    (List.replicate n ms.prevDep).foldl monitorAcc (ms, acc) = (ms, acc) := by
  induction n with
  | zero => rfl
  | succ n ih => rw [List.replicate_succ, List.foldl_cons, monitorAcc_same]; exact ih

/-- C3 counterexample: over the mode sequence Internal, External, Internal the
hook emits only the uncontrolled-to-controlled diagnostic — the ref holding
the previous mode is never updated, so the flip back (per the claim:
P = External, C = Internal) emits nothing — while the claim's P := C
semantics (`claimMonitorRun`) adds a controlled-to-uncontrolled diagnostic. -/
theorem monitor_flip_counterexample :
    monitorRun false [true, false] = [Diagnostic.uncontrolledToControlled]
    ∧ claimMonitorRun false [true, false] =
        [Diagnostic.uncontrolledToControlled, Diagnostic.controlledToUncontrolled]
    ∧ monitorRun false [true, false] ≠ claimMonitorRun false [true, false] :=
  ⟨rfl, rfl, by decide⟩

/-- C3 amended: the check compares the current mode against the mode observed
at the FIRST evaluation (the ref is never updated), and re-evaluates only when
the mode changed since the previous evaluation: an evaluation with an
unchanged mode emits nothing and changes nothing, a changed mode emits the
flip diagnostics computed against the initial mode, and the retained initial
mode survives every step. Hence a single mode change produces exactly one
diagnostic and zero repeats on subsequent unchanged evaluations — and a later
return to the initial mode emits nothing. -/
theorem monitor_flip_amended (n : Nat) (ms : MonitorState) (c : Bool) :
    (c = ms.prevDep → monitorStep ms c = (ms, []))
    ∧ (c ≠ ms.prevDep →
        monitorStep ms c = ({ ms with prevDep := c }, switchWarnings ms.wasControlled c))
    ∧ (monitorStep ms c).1.wasControlled = ms.wasControlled
    ∧ monitorRun false (true :: List.replicate n true) =
        [Diagnostic.uncontrolledToControlled]
    ∧ monitorRun true (false :: List.replicate n false) =
        [Diagnostic.controlledToUncontrolled]
    ∧ monitorRun false (true :: false :: List.replicate n false) =
        [Diagnostic.uncontrolledToControlled] := by
  refine ⟨?_, ?_, ?_, ?_, ?_, ?_⟩
  · intro hc; simp [monitorStep, hc]
  · intro hc; simp [monitorStep, hc]
  · by_cases hc : c = ms.prevDep <;> simp [monitorStep, hc]
  · exact congrArg Prod.snd
      (monitorAcc_const ⟨false, true⟩ [Diagnostic.uncontrolledToControlled] n)
  · exact congrArg Prod.snd
      (monitorAcc_const ⟨true, false⟩ [Diagnostic.controlledToUncontrolled] n)
  · exact congrArg Prod.snd
      (monitorAcc_const ⟨false, false⟩ [Diagnostic.uncontrolledToControlled] n)

/-- Helper: under external ownership, a dispatch that completes returns the
store's canonical state unchanged, whether or not a sink is present. -/
theorem dispatch_controlled_store (cfg : Config) (state : ToggleState) (action : Action)
    (res : ToggleState × List (ToggleState × Action))
    (hctl : onIsControlled cfg = true)
    (hd : dispatchWithOnChange cfg state action = Except.ok res) :
    res.1 = state := by
  rw [dispatchWithOnChange, if_pos hctl] at hd
  cases hs : cfg.hasOnChange with
  | true =>
    rcases h2 : cfg.reducer (effectiveState cfg state) action with e | sug
    · rw [h2] at hd
      simp [hs] at hd
    · rw [h2] at hd
      simp only [hs, eq_self_iff_true, if_true, Except.ok.injEq] at hd
      rw [← hd]
  | false =>
    simp only [hs, Bool.false_eq_true, if_false, Except.ok.injEq] at hd
    rw [← hd]

/-- C10: ownership is decided by a non-nullish test: `controlledValue = false`
(present but falsy) yields external ownership — the effective value is `false`
and a completed dispatch leaves the store state unchanged — while `null` is
treated exactly like `undefined` (internal ownership) by the ownership test,
the effective value and the dispatcher. -/
theorem nonNullish_ownership (i h ro : Bool)
    (r : ToggleState → Action → Except String ToggleState)
    (state : ToggleState) (action : Action)
    (res : ToggleState × List (ToggleState × Action))
    (hd : dispatchWithOnChange ⟨i, r, h, ControlProp.value false, ro⟩ state action =
      Except.ok res) :
    onIsControlled ⟨i, r, h, ControlProp.value false, ro⟩ = true
    ∧ effectiveOn ⟨i, r, h, ControlProp.value false, ro⟩ state = false
    ∧ res.1 = state
    ∧ onIsControlled ⟨i, r, h, ControlProp.null, ro⟩ =
        onIsControlled ⟨i, r, h, ControlProp.undef, ro⟩
    ∧ effectiveOn ⟨i, r, h, ControlProp.null, ro⟩ state =
        effectiveOn ⟨i, r, h, ControlProp.undef, ro⟩ state
    ∧ dispatchWithOnChange ⟨i, r, h, ControlProp.null, ro⟩ state action =
        dispatchWithOnChange ⟨i, r, h, ControlProp.undef, ro⟩ state action := by
  refine ⟨rfl, rfl, ?_, rfl, rfl, rfl⟩
  exact dispatch_controlled_store ⟨i, r, h, ControlProp.value false, ro⟩
    state action res rfl hd

/-- C9: the toggler property bundle carries the state indicator reflecting
the effective value, and a composed click handler whose trace is the
caller-supplied handler's trace followed by `toggle()`'s, both receiving the
same argument; every other caller-supplied property takes precedence over the
built-in ones on key collision. -/
theorem getTogglerProps_spec (cfg : Config) (state : ToggleState)
    (toggleH : Nat → List Event) (ov : Overrides) (key : String) (v : PropVal)
    (hoc : lookupLast ov.rest "onClick" = none)
    (hkey : lookupLast ov.rest key = some v) :
    getTogglerProps (effectiveOn cfg state) toggleH ov "onClick" =
      some (PropVal.handlerVal (fun arg => optCall ov.onClick arg ++ toggleH arg))
    ∧ (lookupLast ov.rest "aria-pressed" = none →
        getTogglerProps (effectiveOn cfg state) toggleH ov "aria-pressed" =
          some (PropVal.boolVal (effectiveOn cfg state)))
    ∧ getTogglerProps (effectiveOn cfg state) toggleH ov key = some v := by
  have hfun : callAll [ov.onClick, some toggleH] =
      fun arg => optCall ov.onClick arg ++ toggleH arg := by
    funext arg
    simp [callAll, optCall]
  refine ⟨?_, ?_, ?_⟩
  · simp [getTogglerProps, hoc, hfun]
  · intro hap
    simp [getTogglerProps, hap]
  · simp [getTogglerProps, hkey]

/-- Witness for C9 at a concrete bundle exercising the built-in collision:
effective value `true` from the default configuration and store state
`{on := true}`, a caller click handler, and a caller-supplied `aria-pressed`
property `false` that takes precedence over the built-in indicator. -/
theorem getTogglerProps_spec_witness :
    getTogglerProps (effectiveOn {} { «on» := true })
        (fun arg => [Event.toggleClick arg])
        { onClick := some (fun arg => [Event.callerClick arg]),
          rest := [("aria-pressed", PropVal.boolVal false)] } "onClick" =
      some (PropVal.handlerVal (fun arg =>
        optCall (some (fun a => [Event.callerClick a])) arg ++ [Event.toggleClick arg]))
    ∧ (lookupLast [("aria-pressed", PropVal.boolVal false)] "aria-pressed" = none →
        getTogglerProps (effectiveOn {} { «on» := true })
          (fun arg => [Event.toggleClick arg])
          { onClick := some (fun arg => [Event.callerClick arg]),
            rest := [("aria-pressed", PropVal.boolVal false)] } "aria-pressed" =
          some (PropVal.boolVal (effectiveOn {} { «on» := true })))
    ∧ getTogglerProps (effectiveOn {} { «on» := true })
        (fun arg => [Event.toggleClick arg])
        { onClick := some (fun arg => [Event.callerClick arg]),
          rest := [("aria-pressed", PropVal.boolVal false)] } "aria-pressed" =
      some (PropVal.boolVal false) :=
  getTogglerProps_spec {} { «on» := true } (fun arg => [Event.toggleClick arg])
    { onClick := some (fun arg => [Event.callerClick arg]),
      rest := [("aria-pressed", PropVal.boolVal false)] } "aria-pressed"
    (PropVal.boolVal false) rfl rfl

/-- Witness for C10 at the concrete configuration `controlledOn = value false`,
sink present, store state `{on := true}`, toggle action. -/
theorem nonNullish_ownership_witness :
    onIsControlled ⟨false, toggleReducer, true, ControlProp.value false, false⟩ = true
    ∧ effectiveOn ⟨false, toggleReducer, true, ControlProp.value false, false⟩
        { «on» := true } = false
    ∧ (({ «on» := true }, [({ «on» := true }, Action.toggle)]) :
        ToggleState × List (ToggleState × Action)).1 = { «on» := true }
    ∧ onIsControlled ⟨false, toggleReducer, true, ControlProp.null, false⟩ =
        onIsControlled ⟨false, toggleReducer, true, ControlProp.undef, false⟩
    ∧ effectiveOn ⟨false, toggleReducer, true, ControlProp.null, false⟩ { «on» := true } =
        effectiveOn ⟨false, toggleReducer, true, ControlProp.undef, false⟩ { «on» := true }
    ∧ dispatchWithOnChange ⟨false, toggleReducer, true, ControlProp.null, false⟩
        { «on» := true } Action.toggle =
        dispatchWithOnChange ⟨false, toggleReducer, true, ControlProp.undef, false⟩
          { «on» := true } Action.toggle :=
  nonNullish_ownership false true false toggleReducer { «on» := true } Action.toggle
    ({ «on» := true }, [({ «on» := true }, Action.toggle)]) rfl

end ControlProps
